import Mathlib

/-!
Shallow embedding of `src/bot.py` (CrossyPosty): the conversation state
machine (aiogram FSM handlers), the credential store, the platform registry
and the publish orchestrator loop.  External collaborators (Telegram
transport, per-platform uploaders) are modelled as oracles passed in as
function arguments; the handlers themselves are translated faithfully from
the Python source.
-/

namespace CrossyPosty

/-- One entry of the `PLATFORMS` registry dict in `bot.py` (identifier key,
`name` and `emoji` fields; the `uploader` capability is passed separately as
an oracle). -/
structure PlatformInfo where
  id : String
  name : String
  emoji : String
deriving DecidableEq, Repr

/-- The static `PLATFORMS` registry of `bot.py`. -/
def PLATFORMS : List PlatformInfo :=
  [⟨"youtube", "YouTube Shorts", "▶️"⟩,
   ⟨"vk", "VK Clips", "📱"⟩,
   ⟨"instagram", "Instagram Reels", "📸"⟩,
   ⟨"tiktok", "TikTok", "🎵"⟩]

/-- Dict lookup `PLATFORMS[p]`: `some` when the key is present, `none` when
the Python code would raise `KeyError`. -/
def lookupPlatform (p : String) : Option PlatformInfo :=
  PLATFORMS.find? (fun i => i.id == p)

/-- Opaque credential payload (the JSON dict stored per platform), modelled
as an association list of string fields. -/
abbrev Token := List (String × String)

/-- The token store `data/tokens.json`: user id and platform id to stored
record.  `none` models an absent key. -/
abbrev Store := String → String → Option Token

/-- `set_user_token` in `bot.py`: upsert of one (user, platform) record. -/
def set_user_token (store : Store) (uid p : String) (t : Token) : Store :=
  fun u q => if u = uid ∧ q = p then some t else store u q

/-- `remove_user_token` in `bot.py`: deletes the (user, platform) record when
present; as a mapping this is a pointwise update to `none`. -/
def remove_user_token (store : Store) (uid p : String) : Store :=
  fun u q => if u = uid ∧ q = p then none else store u q

/-- The aiogram FSM states of `UploadFlow`, plus `idle` for the cleared
state (aiogram `state = None`). -/
inductive ConvState where
  | idle
  | waitingVideo
  | waitingTitle
  | waitingDescription
  | choosingPlatforms
  | uploading
deriving DecidableEq, Repr

/-- The per-user FSM context: current state plus the `state.update_data`
keys used by `bot.py` (`connecting`, `video_file_id`, `video_file_size`,
`title`, `description`, `selected_platforms`); `none` models an absent key. -/
structure Ctx where
  state : ConvState
  connecting : Option String
  videoFileId : Option String
  videoFileSize : Option Nat
  title : Option String
  description : Option String
  selected : Option (List String)
deriving DecidableEq, Repr

/-- Effect of aiogram `state.clear()`: state reset to `None` and all data
keys dropped. -/
def Ctx.cleared : Ctx :=
  ⟨.idle, none, none, none, none, none, none⟩

/-- `handle_video` in `bot.py`: registered on any video message.  It first
runs `state.clear()`, then rejects a video whose declared `file_size`
exceeds 256 MiB with an early return, otherwise records the asset reference
and size and moves to `waiting_title`. -/
def handle_video (ctx : Ctx) (fid : String) (fsize : Nat) : Ctx :=
  let c := Ctx.cleared
  if 256 * 1024 * 1024 < fsize then c
  else { c with videoFileId := some fid, videoFileSize := some fsize,
                state := .waitingTitle }

/-- Python `str.strip()` with no argument: removes leading and trailing
whitespace.  Implemented structurally over the character list (Python also
strips a few rarer unicode whitespace characters; those do not occur in the
flows modelled here). -/
def pyStrip (s : String) : String :=
  String.mk
    (((s.data.dropWhile Char.isWhitespace).reverse.dropWhile
        Char.isWhitespace).reverse)

/-- Left-to-right scan for the pattern of the vk regular expression
`access_token=([^&]+)`: at each position, the pattern matches when `pat`
is a prefix there and at least one non-ampersand character follows; the
capture is the maximal run of non-ampersand characters after `pat`.  When
`pat` occurs but is immediately followed by an ampersand, the regex engine
retries from the next position and can match a later occurrence, so the
scan continues. -/
def vkTokenSearch (pat : List Char) : List Char → Option (List Char)
  | [] => none
  | c :: rest =>
    if pat.isPrefixOf (c :: rest) then
      let tok := ((c :: rest).drop pat.length).takeWhile (fun c2 => c2 != '&')
      if tok.isEmpty then vkTokenSearch pat rest else some tok
    else vkTokenSearch pat rest

/-- Fueled worker for `pyReplace`; the fuel is the input length, enough for
one step per consumed character. -/
def replaceAllGo (pat rep : List Char) : Nat → List Char → List Char
  | _, [] => []
  | 0, l => l
  | fuel + 1, c :: rest =>
    if pat.isPrefixOf (c :: rest) ∧ pat ≠ [] then
      rep ++ replaceAllGo pat rep fuel ((c :: rest).drop pat.length)
    else c :: replaceAllGo pat rep fuel rest

/-- Python `str.replace(pat, rep)`: replaces every occurrence, scanning
left to right. -/
def pyReplace (s pat rep : String) : String :=
  String.mk (replaceAllGo pat.data rep.data s.data.length s.data)

/-- `handle_title` in `bot.py`: strips the text, replaces a bare `-` with a
timestamped placeholder (`now` stands for the formatted
`datetime.now()` string), stores the title and moves to
`waiting_description`. -/
def handle_title (ctx : Ctx) (text now : String) : Ctx :=
  let title := pyStrip text
  let title := if title = "-" then "Video " ++ now else title
  { ctx with title := some title, state := .waitingDescription }

/-- `toggle_platform` in `bot.py`: `selected` is a Python list; a platform
already present is removed (first occurrence, `list.remove`), otherwise it
is appended. -/
def toggle_platform (selected : List String) (p : String) : List String :=
  if p ∈ selected then selected.erase p else selected ++ [p]

/-- Result of one uploader call `uploader.upload(...)`: the returned url on
success, or the message of the raised exception. -/
inductive UploadResult where
  | ok (url : String)
  | err (msg : String)
deriving DecidableEq, Repr

/-- Observable events of the `publish` callback handler, in order:
the asset download, the per-platform status edit, each upload attempt and
its outcome, the `os.remove` call (with its success flag), the final report
edit, the empty-selection alert, and an exception escaping the handler. -/
inductive Ev where
  | download
  | statusEdit (p : String)
  | uploadOk (p url : String)
  | uploadErr (p msg : String)
  | removeCall (ok : Bool)
  | report (lines : List String)
  | alert
  | raised (msg : String)
deriving DecidableEq, Repr

/-- Success line appended to `results` in the publish loop. -/
def succLine (i : PlatformInfo) (url : String) : String :=
  i.emoji ++ " " ++ i.name ++ ": ✅ " ++ url

/-- Failure line appended to `errors` in the publish loop. -/
def failLine (i : PlatformInfo) (msg : String) : String :=
  i.emoji ++ " " ++ i.name ++ ": ❌ " ++ msg

/-- The `for p_id in selected` loop of `publish`: accumulates events, the
`results` list and the `errors` list in attempt order.  The registry access
`PLATFORMS[p_id]` is outside the `try`, so an unknown identifier aborts the
loop with a `KeyError` (returned as the fourth component); an upload
exception is caught and recorded in `errors` only. -/
def uploadGo (u : String → UploadResult) :
    List String → List Ev → List String → List String →
    List Ev × List String × List String × Option String
  | [], evs, rs, es => (evs, rs, es, none)
  | p :: rest, evs, rs, es =>
    match lookupPlatform p with
    | none => (evs, rs, es, some ("KeyError: " ++ p))
    | some info =>
      match u p with
      | .ok url =>
        uploadGo u rest (evs ++ [Ev.statusEdit p, Ev.uploadOk p url])
          (rs ++ [succLine info url]) es
      | .err m =>
        uploadGo u rest (evs ++ [Ev.statusEdit p, Ev.uploadErr p m])
          rs (es ++ [failLine info m])

/-- Header line of the final report message. -/
def reportHeader : String := "📊 Результат публикации:"

/-- The report assembly of `publish`: header, then the `results` block when
non-empty, then a blank separator followed by the `errors` block when
non-empty. -/
def reportLines (rs es : List String) : List String :=
  [reportHeader] ++ (if rs.isEmpty then [] else rs)
    ++ (if es.isEmpty then [] else "" :: es)

/-- The `publish` callback handler of `bot.py`.  Empty selection answers an
alert and returns early.  The asset download (`get_file` and
`download_file`) is not inside any `try`, so a download failure escapes the
handler.  Then the upload loop runs, `os.remove` is attempted once inside
`try/except: pass`, and the report is rendered. -/
def publishHandler (sel : List String) (download : Except String Unit)
    (u : String → UploadResult) (removeOk : Bool) : List Ev :=
  if sel.isEmpty then [Ev.alert]
  else
    match download with
    | .error e => [Ev.raised e]
    | .ok _ =>
      match uploadGo u sel [] [] [] with
      | (evs, _, _, some e) => Ev.download :: (evs ++ [Ev.raised e])
      | (evs, rs, es, none) =>
        Ev.download :: (evs ++ [Ev.removeCall removeOk,
          Ev.report (reportLines rs es)])

/-- VK token extraction in `handle_auth_text`: the code first checks that
the literal `access_token=` occurs in the text, then applies
`re.search` with the regular expression `access_token=([^&]+)` and takes
group 1.  The search semantics — leftmost position where the whole
pattern, including the non-empty capture, matches — are those of
`vkTokenSearch`; the substring pre-check is subsumed, since a successful
search implies an occurrence and a failed search stores nothing on either
message branch. -/
def extractVkToken (text : String) : Option String :=
  (vkTokenSearch "access_token=".data text.data).map String.mk

example : extractVkToken "access_token=&access_token=abc" = some "abc" :=
  rfl

example : extractVkToken "#access_token=tok123&expires_in=0"
    = some "tok123" := rfl

example : extractVkToken "access_token=&x" = none := rfl

example : extractVkToken "no token here" = none := rfl

/-- Instagram credential parsing in `handle_auth_text`: Python
`text.split(maxsplit=1)` must give exactly two parts (login and password).
Splits at the first whitespace run; `none` when fewer than two parts. -/
def splitCred (t : String) : Option (String × String) :=
  let l := t.data.dropWhile Char.isWhitespace
  let w := l.takeWhile (fun c => !c.isWhitespace)
  let rest := (l.dropWhile (fun c => !c.isWhitespace)).dropWhile
    Char.isWhitespace
  if w.isEmpty ∨ rest.isEmpty then none
  else some (String.mk w, String.mk rest)

/-- True exactly on the `error` constructor (a raised collaborator
exception). -/
def exceptFailed : Except String Token → Bool
  | .error _ => true
  | .ok _ => false

/-- `handle_auth_text` in `bot.py` (text received in `waiting_video`).
Without a recorded `connecting` platform it answers a prompt and returns
early, leaving store and context untouched.  Otherwise the stripped text is
fed to the platform branch: a successful exchange stores a record via
`set_user_token`, every failure (raised exception, unextractable VK token,
malformed Instagram credentials) only answers an error message; all
branches then fall through to `state.clear()`.  The collaborator calls
`youtube.exchange_code`, `instagram.login` and `tiktok.exchange_code` are
the oracles `ytEx`, `igLogin`, `ttEx`. -/
def handle_auth_text (uid : String) (ctx : Ctx) (text : String)
    (ytEx : String → Except String Token)
    (igLogin : String → String → Except String Token)
    (ttEx : String → Except String Token) (store : Store) : Store × Ctx :=
  match ctx.connecting with
  | none => (store, ctx)
  | some c =>
    let t := pyStrip text
    let store2 :=
      if c = "youtube" then
        match ytEx t with
        | .ok creds => set_user_token store uid "youtube" creds
        | .error _ => store
      else if c = "vk" then
        match extractVkToken t with
        | some tok => set_user_token store uid "vk" [("access_token", tok)]
        | none => store
      else if c = "instagram" then
        match splitCred t with
        | some (user, pw) =>
          match igLogin user pw with
          | .ok sess =>
            set_user_token store uid "instagram" (("username", user) :: sess)
          | .error _ => store
        | none => store
      else if c = "tiktok" then
        match ttEx t with
        | .ok td => set_user_token store uid "tiktok" td
        | .error _ => store
      else store
    (store2, Ctx.cleared)

/-- Whether the credential exchange attempted by `handle_auth_text` for the
recorded platform `c` on input `text` fails (no record is produced): a
raised exchange exception for youtube and tiktok, an unextractable token
for vk, malformed credentials or a raised login exception for instagram;
for an identifier outside the four branches nothing is ever stored. -/
def authExchangeFails (c text : String)
    (ytEx : String → Except String Token)
    (igLogin : String → String → Except String Token)
    (ttEx : String → Except String Token) : Bool :=
  let t := pyStrip text
  if c = "youtube" then exceptFailed (ytEx t)
  else if c = "vk" then (extractVkToken t).isNone
  else if c = "instagram" then
    match splitCred t with
    | some (user, pw) => exceptFailed (igLogin user pw)
    | none => true
  else if c = "tiktok" then exceptFailed (ttEx t)
  else true

/-- `disconnect_platform` in `bot.py`: strips the `disconnect_` prefix from
the callback data (Python `str.replace`, all occurrences), removes the
stored token (persisted before anything else), then evaluates
`PLATFORMS[platform]["name"]` — a dict access that raises `KeyError` for an
identifier not in the registry.  The second component is the answered
confirmation text, or the escaping exception. -/
def disconnect_platform (store : Store) (uid cbdata : String) :
    Store × Except String String :=
  let p := pyReplace cbdata "disconnect_" ""
  let store2 := remove_user_token store uid p
  (store2,
    match lookupPlatform p with
    | some info => .ok ("✅ " ++ info.name ++ " отключён")
    | none => .error ("KeyError: " ++ p))

/-- The success line contributed by platform `p` alone: determined only by
the registry entry of `p` and the result `u p` of its own upload. -/
def succOf (u : String → UploadResult) (p : String) : Option String :=
  match lookupPlatform p with
  | none => none
  | some info =>
    match u p with
    | .ok url => some (succLine info url)
    | .err _ => none

/-- The failure line contributed by platform `p` alone. -/
def failOf (u : String → UploadResult) (p : String) : Option String :=
  match lookupPlatform p with
  | none => none
  | some info =>
    match u p with
    | .ok _ => none
    | .err m => some (failLine info m)

/-- The events contributed by the attempt on platform `p` alone. -/
def evOf (u : String → UploadResult) (p : String) : List Ev :=
  match lookupPlatform p with
  | none => []
  | some _ =>
    match u p with
    | .ok url => [Ev.statusEdit p, Ev.uploadOk p url]
    | .err m => [Ev.statusEdit p, Ev.uploadErr p m]

/-- Concatenation of the per-platform event blocks in attempt order. -/
def evList (u : String → UploadResult) : List String → List Ev
  | [] => []
  | p :: rest => evOf u p ++ evList u rest

/-- Recognizes the status-edit event of platform `q`. -/
def isStatusOf (q : String) : Ev → Bool
  | .statusEdit p => p == q
  | _ => false

/-- Recognizes the `os.remove` call event. -/
def isRemoveEv : Ev → Bool
  | .removeCall _ => true
  | _ => false

/-- Recognizes the final report event. -/
def isReportEv : Ev → Bool
  | .report _ => true
  | _ => false

lemma uploadGo_spec (u : String → UploadResult) :
    ∀ (sel : List String), (∀ p ∈ sel, (lookupPlatform p).isSome) →
    ∀ evs rs es, uploadGo u sel evs rs es =
      (evs ++ evList u sel, rs ++ sel.filterMap (succOf u),
       es ++ sel.filterMap (failOf u), none) := by
  intro sel
  induction sel with
  | nil => intro _ evs rs es; simp [uploadGo, evList]
  | cons p rest ih =>
    intro h evs rs es
    obtain ⟨info, hp⟩ := Option.isSome_iff_exists.mp (h p (by simp))
    have hrest : ∀ q ∈ rest, (lookupPlatform q).isSome :=
      fun q hq => h q (by simp [hq])
    cases hu : u p with
    | ok url =>
      simp only [uploadGo, hp, hu, ih hrest, evList, evOf, succOf, failOf,
        List.filterMap_cons, List.append_assoc]
      simp [evOf, succOf, failOf, hp, hu]
    | err m =>
      simp only [uploadGo, hp, hu, ih hrest, evList, evOf, succOf, failOf,
        List.filterMap_cons, List.append_assoc]
      simp [evOf, succOf, failOf, hp, hu]

lemma succ_fail_length (u : String → UploadResult) :
    ∀ (sel : List String), (∀ p ∈ sel, (lookupPlatform p).isSome) →
    (sel.filterMap (succOf u)).length + (sel.filterMap (failOf u)).length
      = sel.length := by
  intro sel
  induction sel with
  | nil => intro _; simp
  | cons p rest ih =>
    intro h
    obtain ⟨info, hp⟩ := Option.isSome_iff_exists.mp (h p (by simp))
    have hrest : ∀ q ∈ rest, (lookupPlatform q).isSome :=
      fun q hq => h q (by simp [hq])
    have hlen := ih hrest
    cases hu : u p with
    | ok url =>
      simp [List.filterMap_cons, succOf, failOf, hp, hu]
      omega
    | err m =>
      simp [List.filterMap_cons, succOf, failOf, hp, hu]
      omega

lemma evList_count_status (u : String → UploadResult) :
    ∀ (sel : List String), (∀ p ∈ sel, (lookupPlatform p).isSome) →
    ∀ q, (evList u sel).countP (isStatusOf q)
      = sel.countP (fun p => p == q) := by
  intro sel
  induction sel with
  | nil => intro _ q; simp [evList]
  | cons p rest ih =>
    intro h q
    obtain ⟨info, hp⟩ := Option.isSome_iff_exists.mp (h p (by simp))
    have hrest : ∀ r ∈ rest, (lookupPlatform r).isSome :=
      fun r hr => h r (by simp [hr])
    have hcount : (evOf u p).countP (isStatusOf q)
        = (if p == q then 1 else 0) := by
      cases hu : u p <;> simp [evOf, hp, hu, List.countP_cons, isStatusOf]
    simp [evList, List.countP_append, List.countP_cons, hcount, ih hrest]
    exact Nat.add_comm _ _

lemma evList_no_remove (u : String → UploadResult) :
    ∀ (sel : List String), (evList u sel).countP isRemoveEv = 0 := by
  intro sel
  induction sel with
  | nil => simp [evList]
  | cons p rest ih =>
    have : (evOf u p).countP isRemoveEv = 0 := by
      unfold evOf
      cases lookupPlatform p with
      | none => simp
      | some info =>
        cases u p with
        | ok url => simp [isRemoveEv]
        | err m => simp [isRemoveEv]
    simp [evList, List.countP_append, this, ih]

/-! Concrete fixtures used by counterexamples and witnesses. -/

/-- Empty token store. -/
def store0 : Store := fun _ _ => none

/-- A context mid platform connection: `connect_youtube` put the FSM in
`waiting_video` and recorded `connecting = "youtube"`. -/
def ctxConnect : Ctx :=
  ⟨.waitingVideo, some "youtube", none, none, none, none, none⟩

/-- Upload oracle where vk raises and every other platform succeeds. -/
def uABC : String → UploadResult :=
  fun p => if p = "vk" then .err "boom" else .ok ("https://" ++ p)

/-- Selection youtube, vk, instagram in this attempt order. -/
def selABC : List String := ["youtube", "vk", "instagram"]

/-- Claim C2, counterexample: an oversized video delivered in the
`waiting_video` state does not leave the prior context unchanged — the
handler has already executed `state.clear()`, so the recorded
`connecting` platform is dropped and the FSM state resets, rather than
remaining `waiting_video`. -/
theorem handle_video_oversize_cex :
    handle_video ctxConnect "fid1" (256 * 1024 * 1024 + 1) = Ctx.cleared ∧
    Ctx.cleared ≠ ctxConnect ∧
    (handle_video ctxConnect "fid1" (256 * 1024 * 1024 + 1)).state
      ≠ ConvState.waitingVideo := by
  refine ⟨by decide, by decide, by decide⟩

/-- Claim C2 (amended): a video whose declared size is at most 256 MiB has
its reference and size recorded on a freshly cleared context and the state
moves to `waiting_title`; a video above 256 MiB is rejected without
recording an asset and without reaching `waiting_title`, but the prior
context has already been cleared (state resets, context fields dropped)
rather than being left unchanged. -/
theorem handle_video_size_gate (ctx : Ctx) (fid : String) (n : Nat) :
    (n ≤ 256 * 1024 * 1024 →
      handle_video ctx fid n =
        ⟨.waitingTitle, none, some fid, some n, none, none, none⟩) ∧
    (256 * 1024 * 1024 < n → handle_video ctx fid n = Ctx.cleared) := by
  constructor
  · intro h
    have h2 : ¬ 256 * 1024 * 1024 < n := not_lt.mpr h
    simp [handle_video, h2, Ctx.cleared]
  · intro h
    simp [handle_video, h]

/-- Witness for C2 at concrete inputs, one per branch. -/
theorem handle_video_size_gate_witness :
    handle_video ctxConnect "fid1" 1000 =
      ⟨.waitingTitle, none, some "fid1", some 1000, none, none, none⟩ ∧
    handle_video ctxConnect "fid1" (256 * 1024 * 1024 + 1) = Ctx.cleared :=
  ⟨(handle_video_size_gate ctxConnect "fid1" 1000).1 (by norm_num),
   (handle_video_size_gate ctxConnect "fid1" (256 * 1024 * 1024 + 1)).2
     (by norm_num)⟩

/-- Claim C10: delivery of a video message, in any conversation state and
with any prior context — including one holding a mid-connection platform —
clears the whole context before recording the new asset: the result has no
`connecting`, `title`, `description` or `selected` field, an acceptable
video records exactly the fresh asset on an otherwise empty context, and a
subsequent `handle_auth_text` call finds no `connecting` platform so the
text is not treated as a credential (store and context untouched). -/
theorem handle_video_clears_context (ctx : Ctx) (fid : String) (n : Nat)
    (uid text : String) (ytEx : String → Except String Token)
    (igLogin : String → String → Except String Token)
    (ttEx : String → Except String Token) (store : Store) :
    ((handle_video ctx fid n).connecting = none ∧
     (handle_video ctx fid n).title = none ∧
     (handle_video ctx fid n).description = none ∧
     (handle_video ctx fid n).selected = none) ∧
    (n ≤ 256 * 1024 * 1024 →
      handle_video ctx fid n =
        ⟨.waitingTitle, none, some fid, some n, none, none, none⟩) ∧
    handle_auth_text uid (handle_video ctx fid n) text ytEx igLogin ttEx
      store = (store, handle_video ctx fid n) := by
  have hc : (handle_video ctx fid n).connecting = none := by
    unfold handle_video
    by_cases h : 256 * 1024 * 1024 < n <;> simp [h, Ctx.cleared]
  refine ⟨?_, ?_, ?_⟩
  · refine ⟨hc, ?_, ?_, ?_⟩ <;>
      · unfold handle_video
        by_cases h : 256 * 1024 * 1024 < n <;> simp [h, Ctx.cleared]
  · intro h
    have h2 : ¬ 256 * 1024 * 1024 < n := not_lt.mpr h
    simp [handle_video, h2, Ctx.cleared]
  · simp [handle_auth_text, hc]

/-- Witness for C10 at a concrete mid-connection context and video. -/
theorem handle_video_clears_context_witness :
    ((handle_video ctxConnect "fid2" 42).connecting = none ∧
     (handle_video ctxConnect "fid2" 42).title = none ∧
     (handle_video ctxConnect "fid2" 42).description = none ∧
     (handle_video ctxConnect "fid2" 42).selected = none) ∧
    handle_video ctxConnect "fid2" 42 =
      ⟨.waitingTitle, none, some "fid2", some 42, none, none, none⟩ ∧
    handle_auth_text "7" (handle_video ctxConnect "fid2" 42) "code"
      (fun _ => Except.error "bad") (fun _ _ => Except.error "bad")
      (fun _ => Except.error "bad") store0
      = (store0, handle_video ctxConnect "fid2" 42) := by
  obtain ⟨h1, h2, h3⟩ := handle_video_clears_context ctxConnect "fid2" 42
    "7" "code" (fun _ => Except.error "bad") (fun _ _ => Except.error "bad")
    (fun _ => Except.error "bad") store0
  exact ⟨h1, h2 (by norm_num), h3⟩

/-- Claim C4, counterexample: a title that is not the literal `-` is not
stored verbatim — the handler strips surrounding whitespace first. -/
theorem handle_title_strip_cex :
    (handle_title Ctx.cleared " my title " "2024-01-01 00:00").title
      = some "my title" ∧
    some "my title" ≠ some " my title " := by
  exact ⟨by decide, by decide⟩

/-- Claim C4 (amended): the title input is first stripped of surrounding
whitespace; when the stripped value is the literal `-` the stored title is
the non-empty timestamped placeholder, and any other input is stored as its
stripped value (verbatim except for the surrounding-whitespace removal);
the state always moves to `waiting_description`. -/
theorem handle_title_spec (ctx : Ctx) (text now : String) :
    (handle_title ctx text now).state = ConvState.waitingDescription ∧
    (pyStrip text = "-" →
      (handle_title ctx text now).title = some ("Video " ++ now) ∧
      "Video " ++ now ≠ "") ∧
    (pyStrip text ≠ "-" →
      (handle_title ctx text now).title = some (pyStrip text)) := by
  refine ⟨by simp [handle_title], ?_, ?_⟩
  · intro h
    refine ⟨by simp [handle_title, h], ?_⟩
    intro hcon
    have h2 : "Video ".data ++ now.data = [] := by
      have h3 := congrArg String.data hcon
      rw [String.data_append] at h3
      exact h3
    have h4 : "Video ".data = [] := (List.append_eq_nil.mp h2).1
    exact absurd h4 (by decide)
  · intro h
    simp [handle_title, h]

/-- Witness for C4: the placeholder branch and the stripped-verbatim
branch at concrete inputs. -/
theorem handle_title_spec_witness :
    ((handle_title Ctx.cleared "-" "2024-01-01 00:00").title
        = some "Video 2024-01-01 00:00" ∧
      "Video " ++ "2024-01-01 00:00" ≠ "") ∧
    (handle_title Ctx.cleared "hello" "2024-01-01 00:00").title
      = some "hello" := by
  refine ⟨?_, ?_⟩
  · exact (handle_title_spec Ctx.cleared "-" "2024-01-01 00:00").2.1
      (by decide)
  · have h := (handle_title_spec Ctx.cleared "hello" "2024-01-01 00:00").2.2
      (by decide)
    simpa using h

/-- Claim C5: toggling the same platform twice in the platform-selection
state returns the selected set to its pre-toggle value: the resulting list
is a permutation of the original (so equal as a set), for any
duplicate-free selection, which the handlers maintain. -/
theorem toggle_platform_twice_restores (sel : List String) (p : String)
    (h : sel.Nodup) :
    (toggle_platform (toggle_platform sel p) p).Perm sel := by
  by_cases hp : p ∈ sel
  · have h1 : toggle_platform sel p = sel.erase p := by
      simp [toggle_platform, hp]
    have h2 : p ∉ sel.erase p := by
      intro hmem
      exact (((List.Nodup.mem_erase_iff h).mp hmem).1) rfl
    have h3 : toggle_platform (sel.erase p) p = sel.erase p ++ [p] := by
      simp [toggle_platform, h2]
    rw [h1, h3]
    exact (List.perm_append_singleton p (sel.erase p)).trans
      (List.perm_cons_erase hp).symm
  · have h1 : toggle_platform sel p = sel ++ [p] := by
      simp [toggle_platform, hp]
    have h2 : p ∈ sel ++ [p] := by simp
    have h3 : (sel ++ [p]).erase p = sel := by
      rw [List.erase_append_right _ hp]
      simp
    rw [h1]
    simp [toggle_platform, h2, h3]

/-- Witness for C5 at a concrete two-platform selection. -/
theorem toggle_platform_twice_restores_witness :
    (toggle_platform (toggle_platform ["youtube", "vk"] "vk") "vk").Perm
      ["youtube", "vk"] :=
  toggle_platform_twice_restores ["youtube", "vk"] "vk" (by decide)

/-- Claim C7: when the recorded platform exchange fails — a raised exchange
or login exception, an unextractable vk token, or malformed instagram
credentials — `handle_auth_text` writes nothing: the resulting store is
exactly the store before the attempt (at every user and platform, so in
particular at this pair, with no partial record), and the conversation is
reset to the cleared idle context. -/
theorem auth_failure_preserves_store (uid : String) (ctx : Ctx)
    (text c : String) (ytEx : String → Except String Token)
    (igLogin : String → String → Except String Token)
    (ttEx : String → Except String Token) (store : Store)
    (hconn : ctx.connecting = some c)
    (hfail : authExchangeFails c text ytEx igLogin ttEx = true) :
    handle_auth_text uid ctx text ytEx igLogin ttEx store
      = (store, Ctx.cleared) ∧ Ctx.cleared.state = ConvState.idle := by
  refine ⟨?_, rfl⟩
  unfold handle_auth_text
  rw [hconn]
  unfold authExchangeFails at hfail
  by_cases h1 : c = "youtube"
  · simp only [h1, if_true] at hfail ⊢
    cases hyt : ytEx (pyStrip text) with
    | ok creds => rw [hyt] at hfail; simp [exceptFailed] at hfail
    | error e => simp [hyt]
  · simp only [h1, if_false] at hfail ⊢
    by_cases h2 : c = "vk"
    · simp only [h2, if_true] at hfail ⊢
      cases hvk : extractVkToken (pyStrip text) with
      | some tok => rw [hvk] at hfail; simp at hfail
      | none => simp [hvk]
    · simp only [h2, if_false] at hfail ⊢
      by_cases h3 : c = "instagram"
      · simp only [h3, if_true] at hfail ⊢
        cases hsp : splitCred (pyStrip text) with
        | some cred =>
          obtain ⟨cu, cp⟩ := cred
          rw [hsp] at hfail
          simp only [] at hfail
          cases hlg : igLogin cu cp with
          | ok sess => rw [hlg] at hfail; simp [exceptFailed] at hfail
          | error e => simp [hsp, hlg]
        | none => simp [hsp]
      · simp only [h3, if_false] at hfail ⊢
        by_cases h4 : c = "tiktok"
        · simp only [h4, if_true] at hfail ⊢
          cases htt : ttEx (pyStrip text) with
          | ok td => rw [htt] at hfail; simp [exceptFailed] at hfail
          | error e => simp [htt]
        · simp only [h4, if_false]

/-- Witness for C7: a youtube code exchange that raises, against the empty
store, leaves the store empty and resets the context. -/
theorem auth_failure_preserves_store_witness :
    handle_auth_text "7" ctxConnect "badcode"
      (fun _ => Except.error "invalid code")
      (fun _ _ => Except.error "login failed")
      (fun _ => Except.error "invalid code") store0
      = (store0, Ctx.cleared) ∧ Ctx.cleared.state = ConvState.idle :=
  auth_failure_preserves_store "7" ctxConnect "badcode" "youtube"
    (fun _ => Except.error "invalid code")
    (fun _ _ => Except.error "login failed")
    (fun _ => Except.error "invalid code") store0 rfl (by decide)

/-- A store with one record, for user 1 on an identifier outside the
registry (as the token file can hold). -/
def storeTw : Store :=
  fun u q => if u = "1" ∧ q = "twitch" then some [("t", "x")] else none

/-- Claim C8, counterexample: the disconnect trigger for a platform
identifier not in the registry is not handled as a no-op or a surfaced
generic failure — after removing the stored token it evaluates
`PLATFORMS[platform]["name"]`, which raises an uncaught `KeyError` out of
the handler. -/
theorem disconnect_unknown_cex :
    (disconnect_platform storeTw "1" "disconnect_twitch").2
      = Except.error "KeyError: twitch" ∧
    (disconnect_platform storeTw "1" "disconnect_twitch").1 "1" "twitch"
      = none ∧
    storeTw "1" "twitch" = some [("t", "x")] := by
  refine ⟨rfl, by decide, by decide⟩

/-- Claim C8 (amended): unrecognized text triggers are no-ops with a
re-prompt, but the disconnect callback is not crash-free: for any callback
data it always removes the (user, platform) token first, then the registry
lookup decides the outcome — a registered platform gets the confirmation
message, while an identifier outside the registry raises an uncaught
`KeyError` escaping the handler instead of a no-op or generic failure. -/
theorem disconnect_platform_spec (store : Store) (uid cbdata : String) :
    (disconnect_platform store uid cbdata).1
      = remove_user_token store uid (pyReplace cbdata "disconnect_" "") ∧
    (∀ info, lookupPlatform (pyReplace cbdata "disconnect_" "") = some info →
      (disconnect_platform store uid cbdata).2
        = Except.ok ("✅ " ++ info.name ++ " отключён")) ∧
    (lookupPlatform (pyReplace cbdata "disconnect_" "") = none →
      (disconnect_platform store uid cbdata).2
        = Except.error ("KeyError: " ++ pyReplace cbdata "disconnect_" "")) := by
  refine ⟨rfl, ?_, ?_⟩
  · intro info hinfo
    simp [disconnect_platform, hinfo]
  · intro hnone
    simp [disconnect_platform, hnone]

/-- Witness for C8: the registered branch and the raising branch at
concrete callback data. -/
theorem disconnect_platform_spec_witness :
    (disconnect_platform storeTw "1" "disconnect_vk").2
      = Except.ok ("✅ " ++ "VK Clips" ++ " отключён") ∧
    (disconnect_platform storeTw "1" "disconnect_twitch").2
      = Except.error ("KeyError: " ++ "twitch") := by
  constructor
  · exact (disconnect_platform_spec storeTw "1" "disconnect_vk").2.1
      ⟨"vk", "VK Clips", "📱"⟩ (by decide)
  · exact (disconnect_platform_spec storeTw "1" "disconnect_twitch").2.2
      (by decide)

lemma evList_no_raised (u : String → UploadResult) :
    ∀ (sel : List String) (m : String), Ev.raised m ∉ evList u sel := by
  intro sel
  induction sel with
  | nil => intro m h; simp [evList] at h
  | cons p rest ih =>
    intro m h
    rw [evList, List.mem_append] at h
    rcases h with h | h
    · revert h
      unfold evOf
      cases lookupPlatform p with
      | none => simp
      | some info =>
        cases u p with
        | ok url => simp
        | err e2 => simp
    · exact ih m h

/-- Claim C3, counterexample: a failing asset download does escape the
publish handler — the `get_file` and `download_file` calls are outside any
`try`, so the handler run ends with the raised exception and no upload,
cleanup or report happens. -/
theorem publish_download_failure_escapes_cex :
    publishHandler selABC (Except.error "network down") uABC true
      = [Ev.raised "network down"] := rfl

/-- Claim C3 (amended): credential-exchange and per-platform upload
failures are caught at the boundary where they are invoked and converted
into outcome data or user messages, so a publish over registered platforms
whose download succeeded never ends in an escaped exception, whatever the
uploads do; the asset download, however, is not guarded: a download failure
propagates out of the publish handler as a raised exception. -/
theorem publish_error_boundaries (sel : List String)
    (u : String → UploadResult) (r : Bool) (e : String)
    (h1 : sel ≠ []) (h2 : ∀ p ∈ sel, (lookupPlatform p).isSome) :
    (∀ m, Ev.raised m ∉ publishHandler sel (Except.ok ()) u r) ∧
    publishHandler sel (Except.error e) u r = [Ev.raised e] := by
  have hne : sel.isEmpty = false := by
    cases sel with
    | nil => exact absurd rfl h1
    | cons a l => rfl
  constructor
  · intro m hm
    have hgo := uploadGo_spec u sel h2 [] [] []
    simp only [List.nil_append] at hgo
    simp only [publishHandler, hne, Bool.false_eq_true, if_false, hgo]
      at hm
    rcases List.mem_cons.mp hm with h | h
    · exact absurd h (by simp)
    · rcases List.mem_append.mp h with h | h
      · exact evList_no_raised u sel m h
      · simp at h
  · simp [publishHandler, hne]

/-- Witness for C3: with a one-platform selection whose upload raises, the
trace with a successful download holds no escaped exception, while a
failing download yields exactly the raised event. -/
theorem publish_error_boundaries_witness :
    (∀ m, Ev.raised m ∉ publishHandler ["vk"] (Except.ok ()) uABC true) ∧
    publishHandler ["vk"] (Except.error "disk full") uABC true
      = [Ev.raised "disk full"] :=
  publish_error_boundaries ["vk"] uABC true "disk full" (by decide)
    (by decide)

/-- Claim C6: over registered platforms the upload loop attempts every
selected platform exactly once whatever the other uploads do, and captures
each failure only in that platform's own outcome — the results and errors
lists are pointwise images of the selection under the per-platform outcome
functions, their lengths sum to the number of selected platforms, each
platform gets exactly one status-edit event per occurrence in the
selection, and the outcome functions of a platform depend only on that
platform's own upload result. -/
theorem publish_outcome_independence (u : String → UploadResult)
    (sel : List String) (h : ∀ p ∈ sel, (lookupPlatform p).isSome) :
    uploadGo u sel [] [] [] =
      (evList u sel, sel.filterMap (succOf u), sel.filterMap (failOf u),
        none) ∧
    (sel.filterMap (succOf u)).length + (sel.filterMap (failOf u)).length
      = sel.length ∧
    (∀ q, (evList u sel).countP (isStatusOf q)
      = sel.countP (fun p => p == q)) ∧
    (∀ u2 p, u2 p = u p → succOf u2 p = succOf u p ∧
      failOf u2 p = failOf u p) := by
  refine ⟨?_, succ_fail_length u sel h, evList_count_status u sel h, ?_⟩
  · have hgo := uploadGo_spec u sel h [] [] []
    simpa using hgo
  · intro u2 p hp
    constructor <;> simp [succOf, failOf, hp]

/-- Witness for C6 at the concrete three-platform selection with a failing
vk upload. -/
theorem publish_outcome_independence_witness :
    uploadGo uABC selABC [] [] [] =
      (evList uABC selABC, selABC.filterMap (succOf uABC),
        selABC.filterMap (failOf uABC), none) ∧
    (selABC.filterMap (succOf uABC)).length
      + (selABC.filterMap (failOf uABC)).length = selABC.length :=
  ⟨(publish_outcome_independence uABC selABC (by decide)).1,
   (publish_outcome_independence uABC selABC (by decide)).2.1⟩

/-- Claim C9: after all selected registered platforms are attempted the
handler calls `os.remove` exactly once — the trace is the download, the
upload events, then a single remove call followed by the report — and the
remove call outcome does not influence the report, whose lines are a
function of the upload outcomes alone (a failed deletion is swallowed by
the bare `except: pass`). -/
theorem publish_cleanup_once (u : String → UploadResult)
    (sel : List String) (r : Bool) (h1 : sel ≠ [])
    (h2 : ∀ p ∈ sel, (lookupPlatform p).isSome) :
    publishHandler sel (Except.ok ()) u r
      = Ev.download :: (evList u sel ++ [Ev.removeCall r,
          Ev.report (reportLines (sel.filterMap (succOf u))
            (sel.filterMap (failOf u)))]) ∧
    (publishHandler sel (Except.ok ()) u r).countP isRemoveEv = 1 := by
  have hne : sel.isEmpty = false := by
    cases sel with
    | nil => exact absurd rfl h1
    | cons a l => rfl
  have hgo := uploadGo_spec u sel h2 [] [] []
  simp only [List.nil_append] at hgo
  have heq : publishHandler sel (Except.ok ()) u r
      = Ev.download :: (evList u sel ++ [Ev.removeCall r,
          Ev.report (reportLines (sel.filterMap (succOf u))
            (sel.filterMap (failOf u)))]) := by
    simp [publishHandler, hne, hgo]
  refine ⟨heq, ?_⟩
  rw [heq]
  simp [List.countP_cons, List.countP_append, evList_no_remove u sel,
    isRemoveEv]

/-- Witness for C9 with a failing deletion: the remove call still happens
exactly once and the report is untouched. -/
theorem publish_cleanup_once_witness :
    publishHandler selABC (Except.ok ()) uABC false
      = Ev.download :: (evList uABC selABC ++ [Ev.removeCall false,
          Ev.report (reportLines (selABC.filterMap (succOf uABC))
            (selABC.filterMap (failOf uABC)))]) ∧
    (publishHandler selABC (Except.ok ()) uABC false).countP isRemoveEv
      = 1 :=
  publish_cleanup_once uABC selABC false (by decide) (by decide)

/-- Claim C1, counterexample: for the selection youtube, vk, instagram with
the vk upload raising and the others succeeding, the rendered report is not
the three outcomes in attempt order — the two success lines come first and
the vk failure line comes last, after the blank separator, so the failing
platform is reported out of attempt order. -/
theorem publish_report_order_cex :
    (publishHandler selABC (Except.ok ()) uABC true).filter isReportEv
      = [Ev.report ["📊 Результат публикации:",
          "▶️ YouTube Shorts: ✅ https://youtube",
          "📸 Instagram Reels: ✅ https://instagram",
          "",
          "📱 VK Clips: ❌ boom"]] ∧
    (["▶️ YouTube Shorts: ✅ https://youtube",
      "📸 Instagram Reels: ✅ https://instagram",
      "",
      "📱 VK Clips: ❌ boom"] : List String)
      ≠ ["▶️ YouTube Shorts: ✅ https://youtube",
         "📱 VK Clips: ❌ boom",
         "📸 Instagram Reels: ✅ https://instagram"] := by
  exact ⟨rfl, by decide⟩

/-- Claim C1 (amended): for a publish over platforms A, B, C where the B
upload raises and A, C succeed, every platform is attempted once in order
A, B, C and yields exactly one outcome — A and C success lines carrying
their URLs and B a failure line — but the final report groups the outcomes
by status: the successes in attempt order first, then a blank separator and
the failures, rather than interleaving the three outcomes in attempt
order. -/
theorem publish_report_groups_by_status (A B C : String)
    (ia ib ic : PlatformInfo) (u : String → UploadResult)
    (urlA msgB urlC : String) (r : Bool)
    (hA : lookupPlatform A = some ia) (hB : lookupPlatform B = some ib)
    (hC : lookupPlatform C = some ic)
    (huA : u A = UploadResult.ok urlA) (huB : u B = UploadResult.err msgB)
    (huC : u C = UploadResult.ok urlC) :
    publishHandler [A, B, C] (Except.ok ()) u r
      = [Ev.download, Ev.statusEdit A, Ev.uploadOk A urlA,
         Ev.statusEdit B, Ev.uploadErr B msgB,
         Ev.statusEdit C, Ev.uploadOk C urlC,
         Ev.removeCall r,
         Ev.report ([reportHeader] ++ [succLine ia urlA, succLine ic urlC]
           ++ ([""] ++ [failLine ib msgB]))] := by
  simp [publishHandler, uploadGo, hA, hB, hC, huA, huB, huC, reportLines]

/-- Witness for C1 at the concrete selection youtube, vk, instagram. -/
theorem publish_report_groups_by_status_witness :
    publishHandler ["youtube", "vk", "instagram"] (Except.ok ()) uABC true
      = [Ev.download, Ev.statusEdit "youtube",
         Ev.uploadOk "youtube" "https://youtube",
         Ev.statusEdit "vk", Ev.uploadErr "vk" "boom",
         Ev.statusEdit "instagram",
         Ev.uploadOk "instagram" "https://instagram",
         Ev.removeCall true,
         Ev.report ([reportHeader]
           ++ [succLine ⟨"youtube", "YouTube Shorts", "▶️"⟩ "https://youtube",
               succLine ⟨"instagram", "Instagram Reels", "📸"⟩
                 "https://instagram"]
           ++ ([""] ++ [failLine ⟨"vk", "VK Clips", "📱"⟩ "boom"]))] :=
  publish_report_groups_by_status "youtube" "vk" "instagram"
    ⟨"youtube", "YouTube Shorts", "▶️"⟩ ⟨"vk", "VK Clips", "📱"⟩
    ⟨"instagram", "Instagram Reels", "📸"⟩ uABC
    "https://youtube" "boom" "https://instagram" true
    rfl rfl rfl rfl rfl rfl

end CrossyPosty
